import Mathlib

/-
Verification of the hook interception and chaining protocol implemented in
line_profiler's C shim (c_trace_callbacks.c).

The embedding models exactly the state that file touches:
  - the current thread's global trace slot (PyThreadState.c_tracefunc /
    .c_traceobj),
  - per-object reference counts (Py_XINCREF / Py_XDECREF),
  - the frame fields read and written by call_callback and set_local_trace
    (f_trace, f_trace_lines).
C function pointers are identified by a natural number; Python objects are
either the None singleton or an object identified by a natural number.
The wrapped hook, the disable_line_events capability, the
wrap_local_f_trace capability and the success of attribute stores are
opaque parameters, since the C code treats all of them as opaque calls.
-/

set_option maxHeartbeats 1000000

/-- Identity of a C-level trace function pointer (a Py_tracefunc). These are
bare function pointers, not reference counted. -/
abbrev Func := Nat

/-- A Python object reference: the None singleton or an ordinary object
identified by an id. A missing pointer (NULL) is modelled by Option. -/
inductive PyVal where
  | pynone
  | pyobj (id : Nat)
deriving DecidableEq

/-- The TraceCallback struct of c_trace_callbacks.h: a function pointer slot
and a PyObject pointer slot; none models NULL. -/
structure TraceCallback where
  c_tracefunc : Option Func
  c_traceobj : Option PyVal
deriving DecidableEq

/-- The runtime state touched by c_trace_callbacks.c: the current thread's
trace slot, the reference counts, and the two frame fields used by the
protocol. -/
structure RTState where
  slot_func : Option Func
  slot_obj : Option PyVal
  rc : PyVal → Int
  f_trace : Option PyVal
  f_trace_lines : Bool

/-- Py_XINCREF: bump the reference count of an object, no-op on NULL. -/
def Py_XINCREF : Option PyVal → (PyVal → Int) → PyVal → Int
  | none, rc => rc
  | some v, rc => fun x => if x = v then rc x + 1 else rc x

/-- Py_XDECREF: drop the reference count of an object, no-op on NULL. -/
def Py_XDECREF : Option PyVal → (PyVal → Int) → PyVal → Int
  | none, rc => rc
  | some v, rc => fun x => if x = v then rc x - 1 else rc x

/-- populate_callback: copy the thread's c_tracefunc and c_traceobj into the
snapshot and Py_XINCREF the copied context. Returns the written snapshot
together with the updated state. -/
def populate_callback (s : RTState) : TraceCallback × RTState :=
  (⟨s.slot_func, s.slot_obj⟩, { s with rc := Py_XINCREF s.slot_obj s.rc })

/-- nullify_callback: Py_XDECREF the held context and set both members to
NULL. -/
def nullify_callback (cb : TraceCallback) (s : RTState) : TraceCallback × RTState :=
  (⟨none, none⟩, { s with rc := Py_XDECREF cb.c_traceobj s.rc })

/-- PyEval_SetTrace (host runtime primitive, modelled from its documented
CPython behaviour): acquire a reference to the new context, install the
(function, context) pair in the thread's slot, release the previously
installed context. -/
def PyEval_SetTrace (f : Option Func) (o : Option PyVal) (s : RTState) : RTState :=
  { s with
      slot_func := f
      slot_obj := o
      rc := Py_XDECREF s.slot_obj (Py_XINCREF o s.rc) }

/-- restore_callback: install the snapshot's contents into the thread's slot
via PyEval_SetTrace, then nullify the snapshot. -/
def restore_callback (cb : TraceCallback) (s : RTState) : TraceCallback × RTState :=
  nullify_callback cb (PyEval_SetTrace cb.c_tracefunc cb.c_traceobj s)

/-- is_null_callback: true for a NULL snapshot pointer or a snapshot with
either member NULL. -/
def is_null_callback : Option TraceCallback → Bool
  | none => true
  | some cb => cb.c_tracefunc.isNone || cb.c_traceobj.isNone

/-- alloc_callback: malloc a TraceCallback. The argument models the
allocator's answer: none is a failed malloc, in which case a MemoryError is
raised (Boolean component) and NULL is returned; on success the fresh memory
is returned as-is — its contents are whatever bytes the allocator handed
back, the function does not initialise the members. -/
def alloc_callback : Option TraceCallback → Option TraceCallback × Bool
  | none => (none, true)
  | some garbage => (some garbage, false)

/-- Second half of call_callback: if a callback turned the frame's
f_trace_lines flag off, turn it back on, and when a frame-local trace
callable is present (neither NULL nor None) replace it by the result of
calling the disabler capability on it. A failed disabler call, or a failed
attribute store, turns the result into -1. -/
def step6 (disabler : PyVal → Option PyVal) (setattrOk : PyVal → Bool)
    (saved_ftl : Bool) (result : Int) (s : RTState) : Int × RTState :=
  if !s.f_trace_lines && (saved_ftl != s.f_trace_lines) then
    match s.f_trace with
    | none => (result, { s with f_trace_lines := saved_ftl })
    | some v =>
      if v = PyVal.pynone then (result, { s with f_trace_lines := saved_ftl })
      else
        match disabler v with
        | none => (-1, { s with f_trace_lines := saved_ftl })
        | some w =>
          if setattrOk w then
            (result, { s with f_trace_lines := saved_ftl, f_trace := some w })
          else (-1, { s with f_trace_lines := saved_ftl })
  else (result, s)

/-- call_callback: invoke the cached trace callback safely.
runHook interprets the call through the snapshot's function pointer with its
stored context (the frame, event kind and argument are folded into the
opaque behaviour); disabler models PyObject_CallOneArg on the
disable_line_events capability; setattrOk models whether the
PyObject_SetAttrString store of the wrapped local hook succeeds. The match's
fallback arm is exactly the is_null_callback early return of the C code.
Returns (result, callback after the call, state after the call). -/
def call_callback (runHook : Func → Option PyVal → RTState → RTState × Int)
    (disabler : PyVal → Option PyVal) (setattrOk : PyVal → Bool)
    (callback : Option TraceCallback) (s : RTState) :
    Int × Option TraceCallback × RTState :=
  match callback with
  | some ⟨some f, some o⟩ =>
    let saved := s.f_trace_lines
    let ps := populate_callback s
    let hr := runHook f (some o) ps.2
    let pa := populate_callback hr.1
    let nc :=
      if is_null_callback (some pa.1) then nullify_callback ⟨some f, some o⟩ pa.2
      else (⟨some f, some o⟩, pa.2)
    let na := nullify_callback pa.1 nc.2
    let rb := restore_callback ps.1 na.2
    let fin := step6 disabler setattrOk saved hr.2 rb.2
    (fin.1, some nc.1, fin.2)
  | cbx => (0, cbx, s)

/-- set_local_trace: install or chain the frame-local trace callable. wrap
models calling manager.wrap_local_f_trace on the existing local callable
(none models a raised call, after which the attribute store with a NULL
value deletes f_trace); manager = none models a NULL manager pointer.
Returns the frame's new f_trace. -/
def set_local_trace (wrap : PyVal → Option PyVal) (manager : Option PyVal)
    (f_trace : Option PyVal) : Option PyVal :=
  match manager with
  | none => f_trace
  | some m =>
    if f_trace = some m then f_trace
    else
      match f_trace with
      | none => some m
      | some PyVal.pynone => some m
      | some v => wrap v

/-- monitoring_restart_version: on a runtime exposing the interpreter's
last_restart_version (Python at least 3.12) the function reads that field;
otherwise the dummy branch returns 0. -/
def monitoring_restart_version (supported : Bool) (last_restart_version : Nat) : Nat :=
  if supported then last_restart_version else 0

/-- The two ways the snapshot discipline allows a populated snapshot to be
closed: nullify it, or restore it into the slot. -/
inductive Closer where
  | nullifyOp
  | restoreOp

/-- Apply a closing operation to a snapshot. -/
def applyCloser : Closer → TraceCallback → RTState → TraceCallback × RTState
  | Closer.nullifyOp => nullify_callback
  | Closer.restoreOp => restore_callback

/-- Run a disciplined sequence of snapshot operations: each block populates
the (empty) snapshot and then closes it with exactly one of nullify or
restore. -/
def runBlocks : List Closer → TraceCallback → RTState → TraceCallback × RTState
  | [], cb, s => (cb, s)
  | c :: rest, _, s =>
    let ps := populate_callback s
    let cs := applyCloser c ps.1 ps.2
    runBlocks rest cs.1 cs.2

/-- A reference count baseline used by concrete witnesses. -/
def rcOne : PyVal → Int := fun _ => 1

/-- A concrete runtime state used by concrete witnesses: a non-empty global
slot, a frame-local callable, line events enabled. -/
def sBase : RTState :=
  ⟨some 1, some (PyVal.pyobj 2), rcOne, some (PyVal.pyobj 5), true⟩

/-- A concrete state with line events disabled, for the opposite-direction
flag witness. -/
def sOff : RTState := { sBase with f_trace_lines := false }

/-- A hook behaviour that clears the thread's trace slot (self-unset). -/
def hookClear : Func → Option PyVal → RTState → RTState × Int :=
  fun _ _ st => ({ st with slot_func := none, slot_obj := none }, 5)

/-- A hook behaviour that turns the frame's line events off. -/
def hookDisable : Func → Option PyVal → RTState → RTState × Int :=
  fun _ _ st => ({ st with f_trace_lines := false }, 7)

/-- A hook behaviour that turns the frame's line events on. -/
def hookEnable : Func → Option PyVal → RTState → RTState × Int :=
  fun _ _ st => ({ st with f_trace_lines := true }, 7)

/-- A disabler capability that always succeeds with a fixed wrapper. -/
def disablerOk : PyVal → Option PyVal := fun _ => some (PyVal.pyobj 100)

/-- An attribute store that always succeeds. -/
def setattrAlways : PyVal → Bool := fun _ => true

/-- A wrap_local_f_trace behaviour that returns a fresh object every time. -/
def wrapSucc : PyVal → Option PyVal
  | PyVal.pynone => some (PyVal.pyobj 0)
  | PyVal.pyobj n => some (PyVal.pyobj (n + 1))

/-- An empty snapshot. -/
def cbEmpty : TraceCallback := ⟨none, none⟩

/-- A snapshot with indeterminate, non-NULL members, as malloc might hand
back. -/
def garbageCb : TraceCallback := ⟨some 1, some (PyVal.pyobj 2)⟩

/-- Dropping a reference just after acquiring it on the same pointer leaves
the counts unchanged. -/
theorem xdecref_xincref (v : Option PyVal) (rc : PyVal → Int) :
    Py_XDECREF v (Py_XINCREF v rc) = rc := by
  cases v with
  | none => rfl
  | some w =>
    funext x
    simp only [Py_XINCREF, Py_XDECREF]
    by_cases h : x = w <;> simp [h]

/-- step6 never changes the thread slot's function member. -/
theorem step6_slot_func (d : PyVal → Option PyVal) (sa : PyVal → Bool)
    (ftl : Bool) (r : Int) (st : RTState) :
    (step6 d sa ftl r st).2.slot_func = st.slot_func := by
  unfold step6
  split
  · split
    · rfl
    · split
      · rfl
      · split
        · rfl
        · split <;> rfl
  · rfl

/-- step6 never changes the thread slot's context member. -/
theorem step6_slot_obj (d : PyVal → Option PyVal) (sa : PyVal → Bool)
    (ftl : Bool) (r : Int) (st : RTState) :
    (step6 d sa ftl r st).2.slot_obj = st.slot_obj := by
  unfold step6
  split
  · split
    · rfl
    · split
      · rfl
      · split
        · rfl
        · split <;> rfl
  · rfl

/-- step6 never changes the reference counts. -/
theorem step6_rc (d : PyVal → Option PyVal) (sa : PyVal → Bool)
    (ftl : Bool) (r : Int) (st : RTState) :
    (step6 d sa ftl r st).2.rc = st.rc := by
  unfold step6
  split
  · split
    · rfl
    · split
      · rfl
      · split
        · rfl
        · split <;> rfl
  · rfl

/-- step6 either passes the incoming result through or reports -1. -/
theorem step6_result (d : PyVal → Option PyVal) (sa : PyVal → Bool)
    (ftl : Bool) (r : Int) (st : RTState) :
    (step6 d sa ftl r st).1 = r ∨ (step6 d sa ftl r st).1 = -1 := by
  unfold step6
  split
  · split
    · exact Or.inl rfl
    · split
      · exact Or.inl rfl
      · split
        · exact Or.inr rfl
        · split
          · exact Or.inl rfl
          · exact Or.inr rfl
  · exact Or.inl rfl

/-- restore_callback installs the snapshot's function member into the slot
unconditionally. -/
theorem restore_slot_func (cb : TraceCallback) (s : RTState) :
    (restore_callback cb s).2.slot_func = cb.c_tracefunc := rfl

/-- restore_callback installs the snapshot's context member into the slot
unconditionally. -/
theorem restore_slot_obj (cb : TraceCallback) (s : RTState) :
    (restore_callback cb s).2.slot_obj = cb.c_traceobj := rfl

/-- Claim C1: for every non-empty snapshot and any behaviour of the wrapped
hook during its invocation (including installing a different global hook or
clearing the slot entirely), the thread's global hook slot holds the same
(function, context) value after call_callback returns as it held
immediately before the call. -/
theorem call_callback_transparent
    (runHook : Func → Option PyVal → RTState → RTState × Int)
    (disabler : PyVal → Option PyVal) (setattrOk : PyVal → Bool)
    (f : Func) (o : PyVal) (s : RTState) :
    (call_callback runHook disabler setattrOk (some ⟨some f, some o⟩) s).2.2.slot_func
        = s.slot_func ∧
    (call_callback runHook disabler setattrOk (some ⟨some f, some o⟩) s).2.2.slot_obj
        = s.slot_obj := by
  constructor
  · simp only [call_callback, step6_slot_func, restore_slot_func, populate_callback]
  · simp only [call_callback, step6_slot_obj, restore_slot_obj, populate_callback]

/-- Acquiring through a NULL pointer is a no-op. -/
theorem xincref_none (rc : PyVal → Int) : Py_XINCREF none rc = rc := rfl

/-- Releasing through a NULL pointer is a no-op. -/
theorem xdecref_none (rc : PyVal → Int) : Py_XDECREF none rc = rc := rfl

/-- Claim C5: on an empty snapshot (NULL pointer or either member NULL),
call_callback returns 0 with no side effects at all; on a non-empty
snapshot it returns either -1 or the raw outcome code produced by the
wrapped hook's invocation, passed through unchanged. -/
theorem call_callback_result_cases
    (runHook : Func → Option PyVal → RTState → RTState × Int)
    (disabler : PyVal → Option PyVal) (setattrOk : PyVal → Bool)
    (callback : Option TraceCallback) (s : RTState) :
    (is_null_callback callback = true →
       call_callback runHook disabler setattrOk callback s = (0, callback, s)) ∧
    (∀ f o, callback = some ⟨some f, some o⟩ →
       (call_callback runHook disabler setattrOk callback s).1 = -1 ∨
       (call_callback runHook disabler setattrOk callback s).1
         = (runHook f (some o) (populate_callback s).2).2) := by
  constructor
  · intro h
    cases callback with
    | none => rfl
    | some cb =>
      cases cb with
      | mk cf co =>
        cases cf with
        | none => rfl
        | some fv =>
          cases co with
          | none => rfl
          | some ov => simp [is_null_callback] at h
  · rintro f o rfl
    simp only [call_callback]
    rcases step6_result disabler setattrOk s.f_trace_lines
        (runHook f (some o) (populate_callback s).2).2
        (restore_callback (populate_callback s).1
          (nullify_callback (populate_callback (runHook f (some o) (populate_callback s).2).1).1
            (if is_null_callback (some (populate_callback (runHook f (some o) (populate_callback s).2).1).1) then
              nullify_callback ⟨some f, some o⟩
                (populate_callback (runHook f (some o) (populate_callback s).2).1).2
             else
              (⟨some f, some o⟩,
                (populate_callback (runHook f (some o) (populate_callback s).2).1).2)).2).2).2
      with h | h
    · exact Or.inr h
    · exact Or.inl h

/-- The snapshot written by populate holds the slot's function. -/
theorem populate_fst_func (s : RTState) :
    (populate_callback s).1.c_tracefunc = s.slot_func := rfl

/-- The snapshot written by populate holds the slot's context. -/
theorem populate_fst_obj (s : RTState) :
    (populate_callback s).1.c_traceobj = s.slot_obj := rfl

/-- populate leaves the slot's function untouched. -/
theorem populate_snd_slot_func (s : RTState) :
    (populate_callback s).2.slot_func = s.slot_func := rfl

/-- populate leaves the slot's context untouched. -/
theorem populate_snd_slot_obj (s : RTState) :
    (populate_callback s).2.slot_obj = s.slot_obj := rfl

/-- populate acquires one reference to the copied context. -/
theorem populate_snd_rc (s : RTState) :
    (populate_callback s).2.rc = Py_XINCREF s.slot_obj s.rc := rfl

/-- populate leaves the frame's local callable untouched. -/
theorem populate_snd_f_trace (s : RTState) :
    (populate_callback s).2.f_trace = s.f_trace := rfl

/-- populate leaves the frame's line-events flag untouched. -/
theorem populate_snd_ftl (s : RTState) :
    (populate_callback s).2.f_trace_lines = s.f_trace_lines := rfl

/-- nullify clears both snapshot members. -/
theorem nullify_fst (cb : TraceCallback) (s : RTState) :
    (nullify_callback cb s).1 = ⟨none, none⟩ := rfl

/-- nullify leaves the slot's function untouched. -/
theorem nullify_snd_slot_func (cb : TraceCallback) (s : RTState) :
    (nullify_callback cb s).2.slot_func = s.slot_func := rfl

/-- nullify leaves the slot's context untouched. -/
theorem nullify_snd_slot_obj (cb : TraceCallback) (s : RTState) :
    (nullify_callback cb s).2.slot_obj = s.slot_obj := rfl

/-- nullify releases the snapshot's reference to its context. -/
theorem nullify_snd_rc (cb : TraceCallback) (s : RTState) :
    (nullify_callback cb s).2.rc = Py_XDECREF cb.c_traceobj s.rc := rfl

/-- nullify leaves the frame's local callable untouched. -/
theorem nullify_snd_f_trace (cb : TraceCallback) (s : RTState) :
    (nullify_callback cb s).2.f_trace = s.f_trace := rfl

/-- nullify leaves the frame's line-events flag untouched. -/
theorem nullify_snd_ftl (cb : TraceCallback) (s : RTState) :
    (nullify_callback cb s).2.f_trace_lines = s.f_trace_lines := rfl

/-- The reference-count effect of restore: acquire for the slot, release the
previously installed context, release the snapshot's own reference. -/
theorem restore_snd_rc (cb : TraceCallback) (s : RTState) :
    (restore_callback cb s).2.rc
      = Py_XDECREF cb.c_traceobj
          (Py_XDECREF s.slot_obj (Py_XINCREF cb.c_traceobj s.rc)) := rfl

/-- restore leaves the frame's local callable untouched. -/
theorem restore_snd_f_trace (cb : TraceCallback) (s : RTState) :
    (restore_callback cb s).2.f_trace = s.f_trace := rfl

/-- restore leaves the frame's line-events flag untouched. -/
theorem restore_snd_ftl (cb : TraceCallback) (s : RTState) :
    (restore_callback cb s).2.f_trace_lines = s.f_trace_lines := rfl

/-- Claim C2: for every non-empty snapshot, if the wrapped hook clears the
thread's global hook slot during its own execution, then after call_callback
returns the caller's snapshot is empty — both members cleared — and the
snapshot's reference to its context object has been released (the final
reference counts are the post-hook counts minus one reference to the
context). -/
theorem call_callback_self_unset
    (runHook : Func → Option PyVal → RTState → RTState × Int)
    (disabler : PyVal → Option PyVal) (setattrOk : PyVal → Bool)
    (f : Func) (o : PyVal) (s : RTState)
    (h1 : (runHook f (some o) (populate_callback s).2).1.slot_func = none)
    (h2 : (runHook f (some o) (populate_callback s).2).1.slot_obj = none) :
    (call_callback runHook disabler setattrOk (some ⟨some f, some o⟩) s).2.1
        = some ⟨none, none⟩ ∧
    (call_callback runHook disabler setattrOk (some ⟨some f, some o⟩) s).2.2.rc
        = Py_XDECREF (some o) (runHook f (some o) (populate_callback s).2).1.rc := by
  have hnull : is_null_callback
      (some (populate_callback (runHook f (some o) (populate_callback s).2).1).1) = true := by
    simp [is_null_callback, populate_fst_func, h1]
  constructor
  · simp only [call_callback, hnull, eq_self_iff_true, if_true, nullify_fst]
  · simp only [call_callback, hnull, eq_self_iff_true, if_true, step6_rc,
      restore_snd_rc, populate_fst_obj, nullify_snd_rc, nullify_snd_slot_obj,
      populate_snd_slot_obj, populate_snd_rc, h2, xincref_none, xdecref_none,
      xdecref_xincref]

/-- Either way the self-unset test goes, the frame's line-events flag is
unchanged. -/
theorem ite_nullify_ftl (c : Prop) [h : Decidable c] (cb cb' : TraceCallback)
    (s : RTState) :
    (if c then nullify_callback cb s else (cb', s)).2.f_trace_lines
      = s.f_trace_lines := by
  split <;> rfl

/-- Either way the self-unset test goes, the frame's local callable is
unchanged. -/
theorem ite_nullify_f_trace (c : Prop) [h : Decidable c] (cb cb' : TraceCallback)
    (s : RTState) :
    (if c then nullify_callback cb s else (cb', s)).2.f_trace = s.f_trace := by
  split <;> rfl

/-- The frame's line-events flag reaching step 6 is exactly what the wrapped
hook left behind. -/
theorem pre_step6_ftl (f : Func) (o : PyVal) (cb0 : TraceCallback) (s2 : RTState) :
    (restore_callback cb0
      (nullify_callback (populate_callback s2).1
        (if is_null_callback (some (populate_callback s2).1) then
          nullify_callback ⟨some f, some o⟩ (populate_callback s2).2
         else (⟨some f, some o⟩, (populate_callback s2).2)).2).2).2.f_trace_lines
      = s2.f_trace_lines := by
  simp only [restore_snd_ftl, nullify_snd_ftl, ite_nullify_ftl, populate_snd_ftl]

/-- The frame's local callable reaching step 6 is exactly what the wrapped
hook left behind. -/
theorem pre_step6_f_trace (f : Func) (o : PyVal) (cb0 : TraceCallback) (s2 : RTState) :
    (restore_callback cb0
      (nullify_callback (populate_callback s2).1
        (if is_null_callback (some (populate_callback s2).1) then
          nullify_callback ⟨some f, some o⟩ (populate_callback s2).2
         else (⟨some f, some o⟩, (populate_callback s2).2)).2).2).2.f_trace
      = s2.f_trace := by
  simp only [restore_snd_f_trace, nullify_snd_f_trace, ite_nullify_f_trace,
    populate_snd_f_trace]

/-- When the frame's flag is still on after the call, step 6 is skipped. -/
theorem step6_flag_on (d : PyVal → Option PyVal) (sa : PyVal → Bool)
    (ftl : Bool) (r : Int) (st : RTState) (h : st.f_trace_lines = true) :
    step6 d sa ftl r st = (r, st) := by
  unfold step6
  rw [h]
  simp

/-- When the wrapped hook turned the flag from on to off, step 6 re-enables
it and handles the frame-local callable through the disabler capability. -/
theorem step6_disable_cases (d : PyVal → Option PyVal) (sa : PyVal → Bool)
    (r : Int) (st : RTState) (h : st.f_trace_lines = false) :
    (step6 d sa true r st).2.f_trace_lines = true ∧
    (∀ v, st.f_trace = some v → v ≠ PyVal.pynone →
      ((∀ w, d v = some w → sa w = true →
          (step6 d sa true r st).2.f_trace = some w ∧ (step6 d sa true r st).1 = r) ∧
       (d v = none → (step6 d sa true r st).1 = -1) ∧
       (∀ w, d v = some w → sa w = false → (step6 d sa true r st).1 = -1))) := by
  have hc : (!st.f_trace_lines && (true != st.f_trace_lines)) = true := by
    rw [h]; rfl
  unfold step6
  rw [if_pos hc]
  constructor
  · split
    · rfl
    · split
      · rfl
      · split
        · rfl
        · split <;> rfl
  · intro v hv hvn
    simp only [hv]
    rw [if_neg hvn]
    refine ⟨?_, ?_, ?_⟩
    · intro w hw hsw
      simp only [hw]
      rw [if_pos hsw]
      exact ⟨rfl, rfl⟩
    · intro hd
      simp only [hd]
    · intro w hw hsw
      simp only [hw]
      rw [if_neg (by simp [hsw])]

/-- Claim C10: for every non-empty snapshot, if the wrapped hook turns the
frame's line-events flag from disabled to enabled during its invocation,
call_callback leaves the flag enabled on return and performs no local-hook
wrapping — the frame's local callable is exactly what the hook left. -/
theorem call_callback_enable_kept
    (runHook : Func → Option PyVal → RTState → RTState × Int)
    (disabler : PyVal → Option PyVal) (setattrOk : PyVal → Bool)
    (f : Func) (o : PyVal) (s : RTState)
    (h1 : s.f_trace_lines = false)
    (h2 : (runHook f (some o) (populate_callback s).2).1.f_trace_lines = true) :
    (call_callback runHook disabler setattrOk (some ⟨some f, some o⟩) s).2.2.f_trace_lines
        = true ∧
    (call_callback runHook disabler setattrOk (some ⟨some f, some o⟩) s).2.2.f_trace
        = (runHook f (some o) (populate_callback s).2).1.f_trace := by
  rcases hE : runHook f (some o) (populate_callback s).2 with ⟨s2, r⟩
  replace h2 : s2.f_trace_lines = true := by rw [hE] at h2; exact h2
  simp only [call_callback, hE]
  have hftl := (pre_step6_ftl f o (populate_callback s).1 s2).trans h2
  have hstep := step6_flag_on disabler setattrOk s.f_trace_lines r _ hftl
  rw [hstep]
  exact ⟨hftl, pre_step6_f_trace f o (populate_callback s).1 s2⟩

/-- Claim C3: for every non-empty snapshot, if the wrapped hook turns the
frame's line-events flag from enabled to disabled during its invocation,
then after call_callback returns the flag is enabled again; if the frame
additionally holds a non-empty local callable (neither NULL nor None), that
callable is replaced by the result of applying the disabler capability to
it; if obtaining the wrapped callable fails, or installing it fails, the
result is -1 while the global-slot restoration of step 5 is kept. -/
theorem call_callback_line_disable
    (runHook : Func → Option PyVal → RTState → RTState × Int)
    (disabler : PyVal → Option PyVal) (setattrOk : PyVal → Bool)
    (f : Func) (o : PyVal) (s : RTState)
    (h1 : s.f_trace_lines = true)
    (h2 : (runHook f (some o) (populate_callback s).2).1.f_trace_lines = false) :
    (call_callback runHook disabler setattrOk (some ⟨some f, some o⟩) s).2.2.f_trace_lines
        = true ∧
    (∀ v, (runHook f (some o) (populate_callback s).2).1.f_trace = some v →
      v ≠ PyVal.pynone →
      ((∀ w, disabler v = some w → setattrOk w = true →
          (call_callback runHook disabler setattrOk (some ⟨some f, some o⟩) s).2.2.f_trace
            = some w) ∧
       (disabler v = none →
          (call_callback runHook disabler setattrOk (some ⟨some f, some o⟩) s).1 = -1 ∧
          (call_callback runHook disabler setattrOk (some ⟨some f, some o⟩) s).2.2.slot_func
            = s.slot_func ∧
          (call_callback runHook disabler setattrOk (some ⟨some f, some o⟩) s).2.2.slot_obj
            = s.slot_obj) ∧
       (∀ w, disabler v = some w → setattrOk w = false →
          (call_callback runHook disabler setattrOk (some ⟨some f, some o⟩) s).1 = -1 ∧
          (call_callback runHook disabler setattrOk (some ⟨some f, some o⟩) s).2.2.slot_func
            = s.slot_func ∧
          (call_callback runHook disabler setattrOk (some ⟨some f, some o⟩) s).2.2.slot_obj
            = s.slot_obj))) := by
  rcases hE : runHook f (some o) (populate_callback s).2 with ⟨s2, r⟩
  replace h2 : s2.f_trace_lines = false := by rw [hE] at h2; exact h2
  simp only [call_callback, hE, h1, step6_slot_func, restore_slot_func,
    populate_fst_func, step6_slot_obj, restore_slot_obj, populate_fst_obj]
  have hftl := (pre_step6_ftl f o (populate_callback s).1 s2).trans h2
  have hft := pre_step6_f_trace f o (populate_callback s).1 s2
  have hcases := step6_disable_cases disabler setattrOk r _ hftl
  refine ⟨hcases.1, ?_⟩
  intro v hv hvn
  obtain ⟨hsucc, hfail, hsafail⟩ := hcases.2 v (hft.trans hv) hvn
  refine ⟨?_, ?_, ?_⟩
  · intro w hw hsw
    exact (hsucc w hw hsw).1
  · intro hd
    exact ⟨hfail hd, trivial, trivial⟩
  · intro w hw hsw
    exact ⟨hsafail w hw hsw, trivial, trivial⟩

/-- A populate immediately closed by nullify or restore is the identity on
the runtime state, and leaves the snapshot empty. -/
theorem snapshot_block_id (c : Closer) (s : RTState) :
    applyCloser c (populate_callback s).1 (populate_callback s).2 = (⟨none, none⟩, s) := by
  cases c with
  | nullifyOp =>
    simp only [applyCloser, populate_callback, nullify_callback]
    rw [xdecref_xincref]
  | restoreOp =>
    simp only [applyCloser, populate_callback, restore_callback, nullify_callback,
      PyEval_SetTrace]
    rw [xdecref_xincref, xdecref_xincref]

/-- A disciplined sequence of populate/close blocks starting from an empty
snapshot is the identity on the runtime state. -/
theorem runBlocks_id (cs : List Closer) (s : RTState) :
    runBlocks cs ⟨none, none⟩ s = (⟨none, none⟩, s) := by
  induction cs with
  | nil => rfl
  | cons c rest ih =>
    simp only [runBlocks]
    rw [snapshot_block_id]
    exact ih

/-- Claim C4: for every runtime state and every sequence of
populate/nullify/restore operations obeying the discipline — each populate
applied to an empty snapshot, followed by exactly one of nullify or restore —
the context's reference is acquired exactly once and released exactly once
per populate: all reference counts return to their starting values, and the
snapshot ends empty (no leak, no double release). -/
theorem snapshot_refcount_balanced (cs : List Closer) (s : RTState) :
    (runBlocks cs ⟨none, none⟩ s).2.rc = s.rc ∧
    (runBlocks cs ⟨none, none⟩ s).1 = ⟨none, none⟩ := by
  rw [runBlocks_id]
  exact ⟨rfl, rfl⟩

/-- Counterexample to claim C6 as stated: restoring an empty snapshot while
the thread's slot holds a hook does touch the slot — PyEval_SetTrace is
called unconditionally with the snapshot's NULL members, clearing the slot. -/
theorem restore_empty_touches_slot :
    (restore_callback cbEmpty sBase).2.slot_func ≠ sBase.slot_func := by
  decide

/-- Claim C6 amended: for every empty snapshot (either member NULL), restore
still installs the snapshot's members into the thread's global hook slot —
so a previously non-empty slot is cleared rather than left unchanged — and
the snapshot's members are cleared. -/
theorem restore_empty_amended (cb : TraceCallback) (s : RTState)
    (h : is_null_callback (some cb) = true) :
    (restore_callback cb s).2.slot_func = cb.c_tracefunc ∧
    (restore_callback cb s).2.slot_obj = cb.c_traceobj ∧
    (restore_callback cb s).1 = ⟨none, none⟩ :=
  ⟨rfl, rfl, rfl⟩

/-- Witness for the amended C6 at a concrete empty snapshot and a concrete
non-empty slot. -/
theorem restore_empty_amended_witness :
    is_null_callback (some cbEmpty) = true ∧
    ((restore_callback cbEmpty sBase).2.slot_func = cbEmpty.c_tracefunc ∧
     (restore_callback cbEmpty sBase).2.slot_obj = cbEmpty.c_traceobj ∧
     (restore_callback cbEmpty sBase).1 = ⟨none, none⟩) :=
  ⟨rfl, restore_empty_amended cbEmpty sBase rfl⟩

/-- Counterexample to claim C7 as stated: with a frame that already has a
distinct local callable and a manager whose wrap capability returns a fresh
object, attaching twice wraps twice, so the final local callable differs
from a single attach. -/
theorem set_local_trace_not_idem :
    set_local_trace wrapSucc (some (PyVal.pyobj 0))
        (set_local_trace wrapSucc (some (PyVal.pyobj 0)) (some (PyVal.pyobj 5)))
      ≠ set_local_trace wrapSucc (some (PyVal.pyobj 0)) (some (PyVal.pyobj 5)) := by
  decide

/-- Claim C7 amended: attach is idempotent whenever the manager is NULL or
the frame's local callable is NULL, the None sentinel, or already the
manager; when a distinct local callable is present, a second attach applies
the wrap capability again to the result of the first. -/
theorem set_local_trace_idem (wrap : PyVal → Option PyVal)
    (manager f_trace : Option PyVal)
    (h : manager = none ∨ f_trace = none ∨ f_trace = some PyVal.pynone ∨
         f_trace = manager) :
    set_local_trace wrap manager (set_local_trace wrap manager f_trace)
      = set_local_trace wrap manager f_trace := by
  rcases h with h | h | h | h
  · subst h; rfl
  · subst h
    cases manager with
    | none => rfl
    | some m => simp [set_local_trace]
  · subst h
    cases manager with
    | none => rfl
    | some m =>
      by_cases hm : m = PyVal.pynone
      · subst hm; simp [set_local_trace]
      · simp [set_local_trace, hm]
  · subst h
    cases f_trace with
    | none => rfl
    | some m => simp [set_local_trace]

/-- Witness for the amended C7: attaching to a frame with no local callable
installs the manager, and a second attach is a no-op. -/
theorem set_local_trace_idem_witness :
    ((some (PyVal.pyobj 0) : Option PyVal) = none ∨ (none : Option PyVal) = none ∨
     (none : Option PyVal) = some PyVal.pynone ∨
     (none : Option PyVal) = some (PyVal.pyobj 0)) ∧
    set_local_trace wrapSucc (some (PyVal.pyobj 0))
        (set_local_trace wrapSucc (some (PyVal.pyobj 0)) none)
      = set_local_trace wrapSucc (some (PyVal.pyobj 0)) none :=
  ⟨Or.inr (Or.inl rfl),
   set_local_trace_idem wrapSucc (some (PyVal.pyobj 0)) none (Or.inr (Or.inl rfl))⟩

/-- Counterexample to claim C8 as stated: a successful allocation returns
malloc's memory as-is, so the snapshot's members are whatever the allocator
handed back, not necessarily empty. -/
theorem alloc_callback_not_empty :
    (alloc_callback (some garbageCb)).1 = some garbageCb ∧
    garbageCb.c_tracefunc ≠ none ∧ garbageCb.c_traceobj ≠ none := by
  refine ⟨rfl, ?_, ?_⟩ <;> decide

/-- Claim C8 amended: allocate returns a new snapshot whose members are
indeterminate (whatever the allocator's memory held — callers must populate
before use); when storage cannot be obtained it raises a MemoryError as a
reportable error and yields a NULL pointer, not a silently empty object. -/
theorem alloc_callback_amended (g : TraceCallback) :
    alloc_callback (some g) = (some g, false) ∧
    alloc_callback none = (none, true) :=
  ⟨rfl, rfl⟩

/-- Claim C9: monitoring_restart_version is monotonically nondecreasing
across any sequence of calls on a host runtime that exposes the restart
counter (given the runtime's guarantee that the counter itself never
decreases), and on a host runtime that does not expose one it returns
exactly 0 on every call. -/
theorem monitoring_restart_version_spec (counter : Nat → Nat)
    (h : Monotone counter) :
    Monotone (fun i => monitoring_restart_version true (counter i)) ∧
    ∀ i, monitoring_restart_version false (counter i) = 0 := by
  constructor
  · intro a b hab
    simpa [monitoring_restart_version] using h hab
  · intro i
    rfl

/-- Witness for C9 at the identity counter. -/
theorem monitoring_restart_version_spec_witness :
    Monotone (fun i => i : Nat → Nat) ∧
    (Monotone (fun i => monitoring_restart_version true ((fun i => i : Nat → Nat) i)) ∧
     ∀ i, monitoring_restart_version false ((fun i => i : Nat → Nat) i) = 0) :=
  ⟨fun _ _ hab => hab,
   monitoring_restart_version_spec (fun i => i) (fun _ _ hab => hab)⟩

/-- Witness for C2: a concrete hook that clears the slot leaves the caller's
snapshot nullified. -/
theorem call_callback_self_unset_witness :
    (hookClear 3 (some (PyVal.pyobj 4)) (populate_callback sBase).2).1.slot_func = none ∧
    (hookClear 3 (some (PyVal.pyobj 4)) (populate_callback sBase).2).1.slot_obj = none ∧
    (call_callback hookClear disablerOk setattrAlways
        (some ⟨some 3, some (PyVal.pyobj 4)⟩) sBase).2.1 = some ⟨none, none⟩ :=
  ⟨rfl, rfl,
   (call_callback_self_unset hookClear disablerOk setattrAlways 3
      (PyVal.pyobj 4) sBase rfl rfl).1⟩

/-- Witness for C3: a concrete hook that turns the flag off sees it back on
after the call. -/
theorem call_callback_line_disable_witness :
    sBase.f_trace_lines = true ∧
    (hookDisable 3 (some (PyVal.pyobj 4)) (populate_callback sBase).2).1.f_trace_lines
        = false ∧
    (call_callback hookDisable disablerOk setattrAlways
        (some ⟨some 3, some (PyVal.pyobj 4)⟩) sBase).2.2.f_trace_lines = true :=
  ⟨rfl, rfl,
   (call_callback_line_disable hookDisable disablerOk setattrAlways 3
      (PyVal.pyobj 4) sBase rfl rfl).1⟩

/-- Witness for C5: a NULL snapshot pointer is a pure no-op returning 0. -/
theorem call_callback_result_cases_witness :
    is_null_callback (none : Option TraceCallback) = true ∧
    call_callback hookClear disablerOk setattrAlways none sBase = (0, none, sBase) :=
  ⟨rfl,
   (call_callback_result_cases hookClear disablerOk setattrAlways none sBase).1 rfl⟩

/-- Witness for C10: a concrete hook that turns the flag on leaves it on. -/
theorem call_callback_enable_kept_witness :
    sOff.f_trace_lines = false ∧
    (hookEnable 3 (some (PyVal.pyobj 4)) (populate_callback sOff).2).1.f_trace_lines
        = true ∧
    (call_callback hookEnable disablerOk setattrAlways
        (some ⟨some 3, some (PyVal.pyobj 4)⟩) sOff).2.2.f_trace_lines = true :=
  ⟨rfl, rfl,
   (call_callback_enable_kept hookEnable disablerOk setattrAlways 3
      (PyVal.pyobj 4) sOff rfl rfl).1⟩
